import Mathlib

/-!
# GrassHopper — verification of the spec against `src/sketch.js`

Shallow embedding of the game logic of `src/sketch.js` (the revision the
claims reference: theme system, two grass layers, emoji bugs, pooled
initialization).  JavaScript numbers are modelled as exact rationals (ℚ);
`Math.random()` calls are modelled by explicit rational inputs threaded
through the operations.  Rendering side effects are modelled as event traces
where a claim is about ordering, and as field updates (`drawSize`) where the
code stores data during drawing.
-/

namespace GrassHopper

/-- Canvas dimensions (`canvas.width`, `canvas.height`). -/
structure Canvas where
  width : ℚ
  height : ℚ
deriving DecidableEq

/-- Vertical position of the grass line: `canvas.height * GRASS_RATIO` with
the ratio constant 0.66 (`grassTopY` in the source). -/
def grassTopY (cv : Canvas) : ℚ := cv.height * 0.66

/-- The three bug types of `BUG_TYPES = ["hopper", "beetle", "moth"]`. -/
inductive BugType
  | hopper
  | beetle
  | moth
deriving DecidableEq, Repr

/-- The list `BUG_TYPES` in source order. -/
def BUG_TYPES : List BugType := [BugType.hopper, BugType.beetle, BugType.moth]

/-- Navigation states: `state` is one of "title", "forest", "map". -/
inductive NavState
  | title
  | forest
  | map
deriving DecidableEq, Repr

/-- The inventory object `{ hopper: 0, beetle: 0, moth: 0 }`. -/
structure Inventory where
  hopper : Nat
  beetle : Nat
  moth : Nat
deriving DecidableEq, Repr

/-- Count held for a bug type (`inventory[type]`). -/
def Inventory.count (inv : Inventory) : BugType → Nat
  | BugType.hopper => inv.hopper
  | BugType.beetle => inv.beetle
  | BugType.moth => inv.moth

/-- Increment the count of one bug type (`inventory[bugs[i].type]++`). -/
def Inventory.incr (inv : Inventory) : BugType → Inventory
  | BugType.hopper => { inv with hopper := inv.hopper + 1 }
  | BugType.beetle => { inv with beetle := inv.beetle + 1 }
  | BugType.moth => { inv with moth := inv.moth + 1 }

/-! ## Theme system

`BASE_THEME` holds five color strings and — as written in the source — no
`bugs` key.  `THEME_OVERRIDES` maps the three known location keys to
override records; `getTheme` merges the override onto the base palette and
builds the bug-color map from the override alone (the spread
`...BASE_THEME.bugs` contributes nothing because `BASE_THEME.bugs` is
undefined). -/

/-- The frozen `BASE_THEME` object.  It defines no bug colors. -/
structure BaseTheme where
  sky : String
  ground : String
  trees : String
  grassFront : String
  grassBack : String
deriving DecidableEq

def BASE_THEME : BaseTheme :=
  { sky := "#7bd2cb"
    ground := "#6c833b"
    trees := "#63732c"
    grassFront := "#286328"
    grassBack := "rgba(12, 60, 22, 0.98)" }

/-- One entry of `THEME_OVERRIDES`: every field is optional, matching the
partial objects in the source (`forest` overrides nothing). -/
structure ThemeOverride where
  sky : Option String := none
  ground : Option String := none
  trees : Option String := none
  grassFront : Option String := none
  grassBack : Option String := none
  bugs : Option (BugType → String) := none

/-- Bug colors of the `meadow` override. -/
def meadowBugColors : BugType → String
  | BugType.hopper => "#a6ff4d"
  | BugType.beetle => "#4d2b1a"
  | BugType.moth => "#fff2cc"

/-- Bug colors of the `swamp` override. -/
def swampBugColors : BugType → String
  | BugType.hopper => "#55ffb3"
  | BugType.beetle => "#1a1a1a"
  | BugType.moth => "#bfffea"

/-- The frozen `THEME_OVERRIDES` map: own keys are exactly `forest`,
`meadow` and `swamp`; every other key looks up as undefined (`none`). -/
def THEME_OVERRIDES (loc : String) : Option ThemeOverride :=
  if loc = "forest" then some {}
  else if loc = "meadow" then
    some { sky := some "#9fe7ff"
           ground := some "#44b84a"
           trees := some "#2b7a2f"
           grassFront := some "#35b135"
           grassBack := some "rgba(20, 95, 28, 0.95)"
           bugs := some meadowBugColors }
  else if loc = "swamp" then
    some { sky := some "#7fb8a6"
           ground := some "#2f6b3d"
           trees := some "#143f2a"
           grassFront := some "#2a8a4a"
           grassBack := some "rgba(10, 35, 20, 0.98)"
           bugs := some swampBugColors }
  else none

/-- A resolved theme as returned by `getTheme`: five concrete colors plus a
partial map of bug colors (`theme.bugs[t]` may be undefined). -/
structure Theme where
  sky : String
  ground : String
  trees : String
  grassFront : String
  grassBack : String
  bugs : BugType → Option String

/-- `getTheme()`: resolve the current location to a theme.
`const o = THEME_OVERRIDES[currentLocation] || THEME_OVERRIDES.forest`
falls back to the empty forest override; the merged `bugs` object is
`{ ...BASE_THEME.bugs, ...(o.bugs || {}) }`, and since `BASE_THEME` has no
`bugs` key this is exactly the override's map (or empty). -/
def getTheme (loc : String) : Theme :=
  let o := (THEME_OVERRIDES loc).getD {}
  { sky := o.sky.getD BASE_THEME.sky
    ground := o.ground.getD BASE_THEME.ground
    trees := o.trees.getD BASE_THEME.trees
    grassFront := o.grassFront.getD BASE_THEME.grassFront
    grassBack := o.grassBack.getD BASE_THEME.grassBack
    bugs := fun t =>
      match o.bugs with
      | some m => some (m t)
      | none => none }

/-! ## Grass blades -/

/-- Clamp as the source writes it: two sequential conditional assignments
`if (v > maxBend) v = maxBend; if (v < -maxBend) v = -maxBend;`. -/
def clampSeq (bound v : ℚ) : ℚ :=
  let v := if v > bound then bound else v
  if v < -bound then -bound else v

/-- The `opts` object passed to the `GrassBlade` constructor.  Optional
fields mirror the `??` defaults in the constructor. -/
structure BladeOpts where
  color : String
  curve : ℚ
  stiffness : ℚ
  damping : ℚ
  interactStrength : ℚ
  maxBend : ℚ
  heightScale : Option ℚ := none
  thickness : Option ℚ := none
  highlightAlpha : Option ℚ := none

/-- A grass blade with its per-layer tuning constants. -/
structure GrassBlade where
  x : ℚ
  baseY : ℚ
  height : ℚ
  angle : ℚ
  targetAngle : ℚ
  color : String
  curve : ℚ
  stiffness : ℚ
  damping : ℚ
  interactStrength : ℚ
  maxBend : ℚ
  thickness : ℚ
  highlightAlpha : ℚ
deriving DecidableEq

/-- The `GrassBlade` constructor.  `rh` and `rt` are the two
`Math.random()` draws for height and thickness. -/
def GrassBlade.make (x baseY : ℚ) (o : BladeOpts) (rh rt : ℚ) : GrassBlade :=
  { x := x
    baseY := baseY
    height := (40 + rh * 50) * o.heightScale.getD 1
    angle := 0
    targetAngle := 0
    color := o.color
    curve := o.curve
    stiffness := o.stiffness
    damping := o.damping
    interactStrength := o.interactStrength
    maxBend := o.maxBend
    thickness := o.thickness.getD (0.9 + rt * 0.6)
    highlightAlpha := o.highlightAlpha.getD 0.08 }

/-- `GrassBlade.update()`: chase the target angle, damp the target, then
clamp the angle to `[-maxBend, maxBend]`. -/
def GrassBlade.update (g : GrassBlade) : GrassBlade :=
  { g with
    angle := clampSeq g.maxBend (g.angle + (g.targetAngle - g.angle) * g.stiffness)
    targetAngle := g.targetAngle * g.damping }

/-- `GrassBlade.interact(mx, my)`: if the pointer is within 70 units of the
blade base (`Math.hypot(this.x - mx, this.baseY - my) < 70`, expressed here
by comparing squared distances, equivalent for the nonnegative hypot), set
the target angle proportional to the horizontal offset and clamp it. -/
def GrassBlade.interact (g : GrassBlade) (mx my : ℚ) : GrassBlade :=
  if (g.x - mx) ^ 2 + (g.baseY - my) ^ 2 < 70 ^ 2 then
    { g with targetAngle := clampSeq g.maxBend ((g.x - mx) * g.interactStrength) }
  else g

/-- Options of the back grass layer as built in `createGrass`. -/
def backOpts (theme : Theme) : BladeOpts :=
  { color := theme.grassBack
    thickness := some 1.2
    heightScale := some 0.78
    curve := 0.40
    stiffness := 0.08
    damping := 0.90
    interactStrength := 0.006
    maxBend := 0.38
    highlightAlpha := some 0.0 }

/-- Options of the front grass layer as built in `createGrass`. -/
def frontOpts (theme : Theme) : BladeOpts :=
  { color := theme.grassFront
    curve := 0.45
    stiffness := 0.15
    damping := 0.85
    interactStrength := 0.015
    maxBend := 0.55
    highlightAlpha := some 0.08 }

/-- The offscreen buffer constant (`OFFSCREEN_BUFFER = 400`). -/
def OFFSCREEN_BUFFER : ℚ := 400

/-- Iteration count of the layer loop
`for (let x = -OFFSCREEN_BUFFER; x < canvas.width + OFFSCREEN_BUFFER; x += spacing)`:
for positive spacing the loop runs `⌈(width + 2 * OFFSCREEN_BUFFER) / spacing⌉`
times, iteration `i` visiting `x = -OFFSCREEN_BUFFER + i * spacing`. -/
def layerCount (width spacing : ℚ) : Nat :=
  Nat.ceil ((width + 2 * OFFSCREEN_BUFFER) / spacing)

/-- Per-blade random draws used while building grass. -/
structure GrassRng where
  height : Nat → ℚ
  thick : Nat → ℚ

/-- `buildGrassLayer({spacing, opts})`: one blade per loop iteration, at
the visited x position, each consuming its own random draws. -/
def buildGrassLayer (cv : Canvas) (spacing : ℚ) (o : BladeOpts) (rng : GrassRng) :
    List GrassBlade :=
  (List.range (layerCount cv.width spacing)).map
    (fun i : ℕ => GrassBlade.make (-OFFSCREEN_BUFFER + (i : ℚ) * spacing) (grassTopY cv) o
      (rng.height i) (rng.thick i))

/-- `createGrass()`: rebuild both layers from the active theme, back layer
with spacing 3, front layer with spacing 2. -/
def createGrass (cv : Canvas) (loc : String) (rngB rngF : GrassRng) :
    List GrassBlade × List GrassBlade :=
  let theme := getTheme loc
  (buildGrassLayer cv 3 (backOpts theme) rngB,
   buildGrassLayer cv 2 (frontOpts theme) rngF)

/-! ## Bugs -/

/-- The `Math.random()` draws one `Bug.reset()` consumes: horizontal
position, horizontal velocity, vertical velocity, type selection. -/
structure Rand where
  rx : ℚ
  rvx : ℚ
  rvy : ℚ
  rtype : ℚ
deriving DecidableEq

/-- An insect.  `drawSize` is the field `this.drawSize` that `draw()`
assigns; it is undefined (`none`) until the first draw and is the one field
`reset()` does not reassign. -/
structure Bug where
  x : ℚ
  y : ℚ
  vx : ℚ
  vy : ℚ
  radius : ℚ
  type : BugType
  color : String
  drawSize : Option ℚ
deriving DecidableEq

/-- Index into `BUG_TYPES` as computed by
`BUG_TYPES[(Math.random() * BUG_TYPES.length) | 0]`: truncation of the
scaled draw, with a total lookup (`getD`) standing for the array access. -/
def pickBugType (rtype : ℚ) : BugType :=
  BUG_TYPES.getD (Int.toNat ⌊rtype * 3⌋) BugType.hopper

/-- `Bug.reset()`: random x across the viewport, y pinned 18 units below
the grass line, random jump velocities, radius 12, random type, color from
the active theme's bug map with the `|| "#fff"` fallback. -/
def Bug.reset (cv : Canvas) (loc : String) (r : Rand) (b : Bug) : Bug :=
  let theme := getTheme loc
  let t := pickBugType r.rtype
  { b with
    x := r.rx * cv.width
    y := grassTopY cv + 18
    vx := (r.rvx - 0.5) * 3
    vy := -6 - r.rvy * 4
    radius := 12
    type := t
    color := (theme.bugs t).getD "#fff" }

/-- The `Bug` constructor: `constructor() { this.reset(); }` on a fresh
object whose `drawSize` is still undefined. -/
def Bug.new (cv : Canvas) (loc : String) (r : Rand) : Bug :=
  Bug.reset cv loc r
    { x := 0, y := 0, vx := 0, vy := 0, radius := 0
      type := BugType.hopper, color := "", drawSize := none }

/-- `Bug.update()`: gravity, integration, then the two reset checks — the
grass-sink check on the post-integration state, and the out-of-bounds
safety check. -/
def Bug.update (cv : Canvas) (loc : String) (r : Rand) (b : Bug) : Bug :=
  let gt := grassTopY cv
  let vy := b.vy + 0.25
  let x := b.x + b.vx
  let y := b.y + vy
  let b := { b with vy := vy, x := x, y := y }
  if vy > 0 ∧ y ≥ gt + 2 then Bug.reset cv loc r b
  else if x < -120 ∨ x > cv.width + 120 ∨ y < -200 ∨ y > cv.height + 200 then
    Bug.reset cv loc r b
  else b

/-- The size computed in `draw()` and `isClicked()`:
`Math.max(18, this.radius * 2.6)`. -/
def bugSize (b : Bug) : ℚ := max 18 (b.radius * 2.6)

/-- Whether `Bug.draw()` renders anything: it returns early (draws nothing)
once `this.y > grassTop + 2`. -/
def Bug.drawnVisible (cv : Canvas) (b : Bug) : Bool :=
  decide (¬ b.y > grassTopY cv + 2)

/-- The state effect of `Bug.draw()`: `this.drawSize = bugSize` is assigned
before the visibility early-return, so it happens every frame. -/
def Bug.draw (b : Bug) : Bug :=
  { b with drawSize := some (bugSize b) }

/-- `Bug.isClicked(mx, my)`: rectangle hit test centered on the bug, sized
from `this.drawSize` with the undrawn fallback. -/
def Bug.isClicked (b : Bug) (mx my : ℚ) : Bool :=
  let size := b.drawSize.getD (bugSize b)
  let halfW := size * 0.65
  let halfH := size * 0.70
  decide (mx ≥ b.x - halfW ∧ mx ≤ b.x + halfW ∧ my ≥ b.y - halfH ∧ my ≤ b.y + halfH)

/-! ## Game state and navigation -/

/-- The mutable globals the claims are about: navigation state, current
location, the two grass layers, the bug pool and the inventory. -/
structure GState where
  nav : NavState
  loc : String
  grassBack : List GrassBlade
  grassFront : List GrassBlade
  bugs : List Bug
  inventory : Inventory

/-- Random sources for one (re)initialization: per-blade draws for each
grass layer and per-bug draws for the pool. -/
structure Rng where
  back : GrassRng
  front : GrassRng
  bug : Nat → Rand

/-- `ensureForestInitialized()`: rebuild grass only if the front layer is
empty, and push 7 fresh bugs only if the pool is empty. -/
def ensureForestInitialized (cv : Canvas) (rng : Rng) (st : GState) : GState :=
  let st :=
    if st.grassFront.length = 0 then
      let gr := createGrass cv st.loc rng.back rng.front
      { st with grassBack := gr.1, grassFront := gr.2 }
    else st
  if st.bugs.length = 0 then
    { st with bugs := (List.range 7).map (fun i => Bug.new cv st.loc (rng.bug i)) }
  else st

/-- `showForest()`: switch to the forest state and lazily initialize. -/
def showForest (cv : Canvas) (rng : Rng) (st : GState) : GState :=
  ensureForestInitialized cv rng { st with nav := NavState.forest }

/-- `showMap()`: switch to the map state. -/
def showMap (st : GState) : GState := { st with nav := NavState.map }

/-- `hideMap()`: return to the forest. -/
def hideMap (cv : Canvas) (rng : Rng) (st : GState) : GState :=
  showForest cv rng st

/-- `setLocation(loc)`: validate the key against `THEME_OVERRIDES`, falling
back to "forest"; if already in the forest, rebuild grass and reset every
bug in place. -/
def setLocation (cv : Canvas) (rng : Rng) (loc : String) (st : GState) : GState :=
  let loc := if (THEME_OVERRIDES loc).isSome then loc else "forest"
  let st := { st with loc := loc }
  if st.nav = NavState.forest then
    let gr := createGrass cv st.loc rng.back rng.front
    { st with
      grassBack := gr.1
      grassFront := gr.2
      bugs := (st.bugs.enum).map (fun p => Bug.reset cv st.loc (rng.bug p.1) p.2) }
  else st

/-! ## The mousedown capture handler -/

/-- The loop `for (let i = bugs.length - 1; i >= 0; i--)` with a `break`
after the first hit: higher indices (the tail of the list) are tested
first; the first hit has its type counted and is reset, and the scan stops.
Returns the updated pool together with the captured type, or `none` when no
bug was hit. -/
def captureScan (cv : Canvas) (loc : String) (r : Rand) (mx my : ℚ) :
    List Bug → Option (List Bug × BugType)
  | [] => none
  | b :: rest =>
    match captureScan cv loc r mx my rest with
    | some p => some (b :: p.1, p.2)
    | none =>
      if b.isClicked mx my then some (Bug.reset cv loc r b :: rest, b.type)
      else none

/-- The canvas `mousedown` handler: guarded on the forest state; on a hit
it increments the inventory count of the captured type and replaces the hit
bug with its reset. -/
def mousedown (cv : Canvas) (r : Rand) (mx my : ℚ) (st : GState) : GState :=
  if st.nav = NavState.forest then
    match captureScan cv st.loc r mx my st.bugs with
    | some p => { st with bugs := p.1, inventory := st.inventory.incr p.2 }
    | none => st
  else st

/-! ## The animation frame

The per-frame work of `loop()` is modelled twice: as a state transformer
(`frameStep`, the physics and the `drawSize` side effect of drawing) and as
an event trace (`frameEvents`) recording the order in which the loop body
touches entities, which is what the compositor-ordering claim is about. -/

/-- Which grass layer an event refers to. -/
inductive GLayer
  | back
  | front
deriving DecidableEq, Repr

/-- One observable action of the `loop()` body. -/
inductive FrameEvent
  | drawBackground
  | interactBlade (layer : GLayer) (i : Nat)
  | updateBlade (layer : GLayer) (i : Nat)
  | updateBug (i : Nat)
  | drawBlade (layer : GLayer) (i : Nat)
  | drawBug (i : Nat)
  | drawOccluder
deriving DecidableEq, Repr

/-- Physics events: blade interact/update and bug update. -/
def FrameEvent.isPhysics : FrameEvent → Bool
  | FrameEvent.interactBlade _ _ => true
  | FrameEvent.updateBlade _ _ => true
  | FrameEvent.updateBug _ => true
  | _ => false

/-- Draw events of any kind. -/
def FrameEvent.isDraw : FrameEvent → Bool
  | FrameEvent.drawBackground => true
  | FrameEvent.drawBlade _ _ => true
  | FrameEvent.drawBug _ => true
  | FrameEvent.drawOccluder => true
  | _ => false

/-- Entity draw events: a grass blade or a bug being drawn. -/
def FrameEvent.isEntityDraw : FrameEvent → Bool
  | FrameEvent.drawBlade _ _ => true
  | FrameEvent.drawBug _ => true
  | _ => false

/-- The event trace of one `loop()` iteration, in source order: background
first, then the three physics passes (each back blade runs interact then
update, then each front blade, then each bug updates), then the draw passes
back grass → bugs → occluder → front grass.  Outside the forest state the
body does nothing. -/
def frameEvents (st : GState) : List FrameEvent :=
  if st.nav = NavState.forest then
    FrameEvent.drawBackground ::
    ((List.range st.grassBack.length).flatMap
        (fun i => [FrameEvent.interactBlade GLayer.back i, FrameEvent.updateBlade GLayer.back i]) ++
     (List.range st.grassFront.length).flatMap
        (fun i => [FrameEvent.interactBlade GLayer.front i, FrameEvent.updateBlade GLayer.front i]) ++
     (List.range st.bugs.length).map FrameEvent.updateBug ++
     ((List.range st.grassBack.length).map (FrameEvent.drawBlade GLayer.back) ++
      (List.range st.bugs.length).map FrameEvent.drawBug ++
      FrameEvent.drawOccluder ::
      (List.range st.grassFront.length).map (FrameEvent.drawBlade GLayer.front)))
  else []

/-- The state change of one `loop()` iteration: every blade of both layers
runs `interact` then `update` against the current pointer, every bug runs
`update` (consuming its own randoms if it resets), and the bug draw pass
stores `drawSize`.  Outside the forest state the frame is a no-op. -/
def frameStep (cv : Canvas) (rr : Nat → Rand) (mx my : ℚ) (st : GState) : GState :=
  if st.nav = NavState.forest then
    { st with
      grassBack := st.grassBack.map (fun g => (g.interact mx my).update)
      grassFront := st.grassFront.map (fun g => (g.interact mx my).update)
      bugs := (st.bugs.enum).map
        (fun p => Bug.draw (Bug.update cv st.loc (rr p.1) p.2)) }
  else st

/-! ## Helper lemmas -/

theorem abs_clampSeq_le_bound (bound v : ℚ) (hb : 0 ≤ bound) :
    |clampSeq bound v| ≤ bound := by
  unfold clampSeq
  dsimp only
  split_ifs <;> rw [abs_le] <;> constructor <;> linarith

theorem abs_clampSeq_le_abs (bound v : ℚ) (hb : 0 ≤ bound) :
    |clampSeq bound v| ≤ |v| := by
  unfold clampSeq
  dsimp only
  split_ifs with h1 h2 h2 <;>
    cases abs_cases v with
    | inl hv => rw [abs_le]; constructor <;> linarith [hv.1, hv.2]
    | inr hv => rw [abs_le]; constructor <;> linarith [hv.1, hv.2]

theorem bugTypes_getD_mem (n : Nat) :
    BUG_TYPES.getD n BugType.hopper ∈ BUG_TYPES := by
  rcases n with _ | _ | _ | n <;> simp [BUG_TYPES, List.getD]

theorem pickBugType_mem (q : ℚ) : pickBugType q ∈ BUG_TYPES :=
  bugTypes_getD_mem _

/-! ## C9 — interaction threshold -/

/-- C9: for every grass blade and every pointer position whose Euclidean
distance from the blade's base is at least the 70-unit threshold — stated
by the equivalent comparison of squared distances — `interact()` leaves the
blade (its target angle and every other field) unchanged. -/
theorem interact_far_no_change (g : GrassBlade) (mx my : ℚ)
    (h : (g.x - mx) ^ 2 + (g.baseY - my) ^ 2 ≥ 70 ^ 2) :
    g.interact mx my = g := by
  unfold GrassBlade.interact
  rw [if_neg (not_lt.mpr h)]

/-- Witness for `interact_far_no_change`: a concrete front-layer blade at
the origin and a pointer 100 units away. -/
theorem interact_far_no_change_witness :
    ((GrassBlade.make 0 0 (frontOpts (getTheme "forest")) 0 0).x - 100) ^ 2 +
        ((GrassBlade.make 0 0 (frontOpts (getTheme "forest")) 0 0).baseY - 0) ^ 2 ≥ 70 ^ 2 ∧
      (GrassBlade.make 0 0 (frontOpts (getTheme "forest")) 0 0).interact 100 0 =
        GrassBlade.make 0 0 (frontOpts (getTheme "forest")) 0 0 :=
  ⟨by norm_num [GrassBlade.make, frontOpts],
   interact_far_no_change _ 100 0 (by norm_num [GrassBlade.make, frontOpts])⟩

/-! ## C6 — unknown location falls back to forest -/

/-- C6: an unrecognized location key (none of forest, meadow, swamp) makes
`setLocation` fall back to "forest": the current location becomes "forest"
and the resolved theme is the forest/base palette. -/
theorem setLocation_unknown_falls_back (cv : Canvas) (rng : Rng) (st : GState) (loc : String)
    (h1 : loc ≠ "forest") (h2 : loc ≠ "meadow") (h3 : loc ≠ "swamp") :
    (setLocation cv rng loc st).loc = "forest" ∧
    getTheme (setLocation cv rng loc st).loc = getTheme "forest" ∧
    (getTheme "forest").sky = BASE_THEME.sky ∧
    (getTheme "forest").ground = BASE_THEME.ground ∧
    (getTheme "forest").trees = BASE_THEME.trees ∧
    (getTheme "forest").grassFront = BASE_THEME.grassFront ∧
    (getTheme "forest").grassBack = BASE_THEME.grassBack ∧
    (∀ t, (getTheme "forest").bugs t = none) := by
  have hover : THEME_OVERRIDES loc = none := by
    unfold THEME_OVERRIDES
    rw [if_neg h1, if_neg h2, if_neg h3]
  have hloc : (setLocation cv rng loc st).loc = "forest" := by
    simp only [setLocation, hover, Option.isSome_none, Bool.false_eq_true, if_false]
    split_ifs <;> rfl
  refine ⟨hloc, by rw [hloc], rfl, rfl, rfl, rfl, rfl, fun t => rfl⟩

/-- Witness for `setLocation_unknown_falls_back` at the concrete unknown
key "desert". -/
theorem setLocation_unknown_falls_back_witness :
    (setLocation { width := 100, height := 100 }
        { back := { height := fun _ => 0, thick := fun _ => 0 }
          front := { height := fun _ => 0, thick := fun _ => 0 }
          bug := fun _ => { rx := 0, rvx := 0, rvy := 0, rtype := 0 } } "desert"
        { nav := NavState.forest, loc := "meadow", grassBack := [], grassFront := []
          bugs := [], inventory := { hopper := 0, beetle := 0, moth := 0 } }).loc = "forest" :=
  (setLocation_unknown_falls_back _ _ _ "desert"
    (by decide) (by decide) (by decide)).1

/-! ## C2 — sinking bugs are reset (corrected) -/

/-- Canvas used by the C2 counterexample: grass line at y = 66. -/
def cvC2 : Canvas := { width := 100, height := 100 }

/-- Bug used by the C2 counterexample: at the grass line and moving
downward, but too slowly to pass the gt + 2 margin in one step. -/
def bugC2 : Bug :=
  { x := 50, y := 66, vx := 0, vy := 0.5, radius := 12
    type := BugType.hopper, color := "#fff", drawSize := none }

/-- Randoms used by the C2 counterexample. -/
def randC2 : Rand := { rx := 0.5, rvx := 0.5, rvy := 0.5, rtype := 0 }

/-- C2 counterexample: `bugC2` sits exactly on the grass line
(y = 66 = grassTopY) moving downward (vy = 0.5 > 0), yet the next
`update()` does not reset it — the sink check compares the
post-integration position against `grassTop + 2`, and 66.75 < 68 — so the
bug continues past the grass line to y = 66.75 with all its identity
fields intact. -/
theorem bug_update_past_line_not_reset :
    bugC2.vy > 0 ∧ bugC2.y ≥ grassTopY cvC2 ∧
    Bug.update cvC2 "forest" randC2 bugC2 ≠ Bug.reset cvC2 "forest" randC2 bugC2 ∧
    (Bug.update cvC2 "forest" randC2 bugC2).y = 66.75 ∧
    (Bug.update cvC2 "forest" randC2 bugC2).type = bugC2.type := by
  refine ⟨by norm_num [bugC2], by norm_num [bugC2, cvC2, grassTopY], ?_, ?_, ?_⟩ <;>
    norm_num [bugC2, cvC2, randC2, grassTopY, Bug.update, Bug.reset, pickBugType,
      getTheme, THEME_OVERRIDES, BASE_THEME, Bug.mk.injEq]

/-- C2 amended: the sink test acts on the post-integration state — if after
applying gravity and integrating, the vertical velocity is downward and the
new vertical position is at or past the grass line plus the 2-unit margin,
`update()` resets the insect (position, velocity and type reassigned). -/
theorem bug_update_sink_resets (cv : Canvas) (loc : String) (r : Rand) (b : Bug)
    (h1 : b.vy + 0.25 > 0) (h2 : b.y + (b.vy + 0.25) ≥ grassTopY cv + 2) :
    Bug.update cv loc r b = Bug.reset cv loc r b := by
  unfold Bug.update
  dsimp only
  rw [if_pos ⟨h1, h2⟩]
  cases b
  rfl

/-- Witness for `bug_update_sink_resets`: a bug falling fast enough to pass
the margin in one step. -/
theorem bug_update_sink_resets_witness :
    ((2 : ℚ) + 0.25 > 0) ∧
    ((66 : ℚ) + (2 + 0.25) ≥ grassTopY cvC2 + 2) ∧
    Bug.update cvC2 "forest" randC2
        { x := 50, y := 66, vx := 0, vy := 2, radius := 12
          type := BugType.hopper, color := "#fff", drawSize := none }
      = Bug.reset cvC2 "forest" randC2
        { x := 50, y := 66, vx := 0, vy := 2, radius := 12
          type := BugType.hopper, color := "#fff", drawSize := none } :=
  ⟨by norm_num, by norm_num [cvC2, grassTopY],
   bug_update_sink_resets cvC2 "forest" randC2 _
     (by norm_num) (by norm_num [cvC2, grassTopY])⟩

/-! ## C5 — state after reset (corrected) -/

/-- Canvas used by the C5 counterexample. -/
def cvC5 : Canvas := { width := 100, height := 100 }

/-- Randoms used by the C5 counterexample: `rtype = 0` selects a hopper. -/
def randC5 : Rand := { rx := 0.5, rvx := 0.5, rvy := 0.5, rtype := 0 }

/-- C5 counterexample: with the forest location active, the resolved theme
carries no bug-color mapping at all — `BASE_THEME` defines no `bugs` key
and the forest override adds none — so a freshly constructed (reset) hopper
gets the fallback color "#fff" rather than a theme mapping for its type. -/
theorem bug_reset_forest_color_unmapped :
    (Bug.new cvC5 "forest" randC5).type = BugType.hopper ∧
    (getTheme "forest").bugs BugType.hopper = none ∧
    (Bug.new cvC5 "forest" randC5).color = "#fff" := by
  refine ⟨?_, rfl, ?_⟩ <;>
    norm_num [Bug.new, Bug.reset, pickBugType, randC5, BUG_TYPES, getTheme,
      THEME_OVERRIDES, List.getD]

/-- C5 amended: immediately after `reset()` the vertical velocity is
strictly negative (upward) and the type is in the fixed set `BUG_TYPES`;
the color equals the active theme's bug-color mapping for the new type
whenever that theme defines one (meadow and swamp do), and is the fallback
"#fff" when it does not (the forest/base theme defines no bug colors). -/
theorem bug_reset_spec (cv : Canvas) (loc : String) (r : Rand) (b : Bug)
    (hrvy : 0 ≤ r.rvy) :
    (Bug.reset cv loc r b).vy < 0 ∧
    (Bug.reset cv loc r b).type ∈ BUG_TYPES ∧
    (∀ c, (getTheme loc).bugs (Bug.reset cv loc r b).type = some c →
      (Bug.reset cv loc r b).color = c) ∧
    ((getTheme loc).bugs (Bug.reset cv loc r b).type = none →
      (Bug.reset cv loc r b).color = "#fff") := by
  refine ⟨?_, ?_, ?_, ?_⟩
  · show -6 - r.rvy * 4 < 0
    nlinarith
  · exact pickBugType_mem r.rtype
  · intro c hc
    show ((getTheme loc).bugs (pickBugType r.rtype)).getD "#fff" = c
    rw [show (getTheme loc).bugs (pickBugType r.rtype) = some c from hc]
    rfl
  · intro hc
    show ((getTheme loc).bugs (pickBugType r.rtype)).getD "#fff" = "#fff"
    rw [show (getTheme loc).bugs (pickBugType r.rtype) = none from hc]
    rfl

/-- Witness for `bug_reset_spec` with the swamp theme, which maps every bug
type: the reset hopper is upward-moving and painted the swamp hopper tint. -/
theorem bug_reset_spec_witness :
    ((0 : ℚ) ≤ (0.5 : ℚ)) ∧
    (Bug.reset cvC5 "swamp" randC5
        { x := 0, y := 0, vx := 0, vy := 0, radius := 0
          type := BugType.hopper, color := "", drawSize := none }).vy < 0 ∧
    (Bug.reset cvC5 "swamp" randC5
        { x := 0, y := 0, vx := 0, vy := 0, radius := 0
          type := BugType.hopper, color := "", drawSize := none }).color = "#55ffb3" := by
  have h := bug_reset_spec cvC5 "swamp" randC5
    { x := 0, y := 0, vx := 0, vy := 0, radius := 0
      type := BugType.hopper, color := "", drawSize := none }
    (by norm_num [randC5])
  refine ⟨by norm_num, h.1, h.2.2.1 "#55ffb3" ?_⟩
  norm_num [Bug.reset, pickBugType, randC5, BUG_TYPES, getTheme, THEME_OVERRIDES,
    swampBugColors, List.getD,
    if_neg (show ¬("swamp" = "forest") from by decide),
    if_neg (show ¬("swamp" = "meadow") from by decide)]

/-! ## C3 — bend-angle invariant -/

/-- Blade states reachable in the program: constructed by `createGrass`
with one of the two layer option records (angle and target angle both start
at 0), then evolved by any interleaving of `interact` and `update` with
arbitrary pointer positions. -/
inductive ProgramBlade : GrassBlade → Prop
  | back (theme : Theme) (x baseY rh rt : ℚ) :
      ProgramBlade (GrassBlade.make x baseY (backOpts theme) rh rt)
  | front (theme : Theme) (x baseY rh rt : ℚ) :
      ProgramBlade (GrassBlade.make x baseY (frontOpts theme) rh rt)
  | update {g : GrassBlade} : ProgramBlade g → ProgramBlade g.update
  | interact {g : GrassBlade} (mx my : ℚ) :
      ProgramBlade g → ProgramBlade (g.interact mx my)

theorem programBlade_inv {g : GrassBlade} (h : ProgramBlade g) :
    |g.angle| ≤ g.maxBend ∧ |g.targetAngle| ≤ g.maxBend ∧
    0 ≤ g.damping ∧ g.damping ≤ 1 := by
  induction h with
  | back theme x baseY rh rt =>
    norm_num [GrassBlade.make, backOpts]
  | front theme x baseY rh rt =>
    norm_num [GrassBlade.make, frontOpts]
  | @update g hp ih =>
    obtain ⟨ha, ht, hd0, hd1⟩ := ih
    have hb : (0 : ℚ) ≤ g.maxBend := le_trans (abs_nonneg _) ha
    refine ⟨abs_clampSeq_le_bound _ _ hb, ?_, hd0, hd1⟩
    show |g.targetAngle * g.damping| ≤ g.maxBend
    rw [abs_mul, abs_of_nonneg hd0]
    calc |g.targetAngle| * g.damping ≤ g.maxBend * 1 := mul_le_mul ht hd1 hd0 hb
      _ = g.maxBend := mul_one _
  | @interact g mx my hp ih =>
    obtain ⟨ha, ht, hd0, hd1⟩ := ih
    have hb : (0 : ℚ) ≤ g.maxBend := le_trans (abs_nonneg _) ha
    unfold GrassBlade.interact
    split_ifs
    · exact ⟨ha, abs_clampSeq_le_bound _ _ hb, hd0, hd1⟩
    · exact ⟨ha, ht, hd0, hd1⟩

/-- C3: every grass blade state the program can reach — any sequence of
`interact()` and `update()` calls with arbitrary pointer positions,
starting from construction where angle and target angle are 0 — keeps both
the angle and the target angle within `[-maxBend, maxBend]`. -/
theorem blade_angle_invariant {g : GrassBlade} (h : ProgramBlade g) :
    |g.angle| ≤ g.maxBend ∧ |g.targetAngle| ≤ g.maxBend :=
  ⟨(programBlade_inv h).1, (programBlade_inv h).2.1⟩

/-- Witness for `blade_angle_invariant`: a concrete front-layer blade after
one interact (pointer right at its base) and one update. -/
theorem blade_angle_invariant_witness :
    |(((GrassBlade.make 0 66 (frontOpts (getTheme "forest")) 0 0).interact 10 66).update).angle|
        ≤ (((GrassBlade.make 0 66 (frontOpts (getTheme "forest")) 0 0).interact 10 66).update).maxBend ∧
      |(((GrassBlade.make 0 66 (frontOpts (getTheme "forest")) 0 0).interact 10 66).update).targetAngle|
        ≤ (((GrassBlade.make 0 66 (frontOpts (getTheme "forest")) 0 0).interact 10 66).update).maxBend :=
  blade_angle_invariant
    (ProgramBlade.update (ProgramBlade.interact 10 66
      (ProgramBlade.front (getTheme "forest") 0 66 0 0)))

/-! ## C4 — damping under repeated update (corrected) -/

/-- Joint magnitude of a blade's angle and target angle. -/
def bladeMag (g : GrassBlade) : ℚ := max |g.angle| |g.targetAngle|

theorem update_config (g : GrassBlade) :
    g.update.stiffness = g.stiffness ∧ g.update.damping = g.damping ∧
    g.update.maxBend = g.maxBend :=
  ⟨rfl, rfl, rfl⟩

theorem update_iterate_config (g : GrassBlade) (n : ℕ) :
    (GrassBlade.update^[n] g).stiffness = g.stiffness ∧
    (GrassBlade.update^[n] g).damping = g.damping ∧
    (GrassBlade.update^[n] g).maxBend = g.maxBend := by
  induction n with
  | zero => exact ⟨rfl, rfl, rfl⟩
  | succ n ih =>
    rw [Function.iterate_succ_apply']
    exact ⟨ih.1, ih.2.1, ih.2.2⟩

theorem update_step_target (g : GrassBlade)
    (hd0 : 0 ≤ g.damping) (hd1 : g.damping ≤ 1) :
    |g.update.targetAngle| ≤ |g.targetAngle| := by
  show |g.targetAngle * g.damping| ≤ |g.targetAngle|
  rw [abs_mul, abs_of_nonneg hd0]
  calc |g.targetAngle| * g.damping ≤ |g.targetAngle| * 1 :=
        mul_le_mul_of_nonneg_left hd1 (abs_nonneg _)
    _ = |g.targetAngle| := mul_one _

theorem update_step_mag (g : GrassBlade)
    (hs0 : 0 ≤ g.stiffness) (hs1 : g.stiffness ≤ 1)
    (hd0 : 0 ≤ g.damping) (hd1 : g.damping ≤ 1) (hb : 0 ≤ g.maxBend) :
    bladeMag g.update ≤ bladeMag g := by
  have hangle : |g.update.angle| ≤ bladeMag g := by
    show |clampSeq g.maxBend (g.angle + (g.targetAngle - g.angle) * g.stiffness)| ≤ bladeMag g
    refine le_trans (abs_clampSeq_le_abs _ _ hb) ?_
    have he : g.angle + (g.targetAngle - g.angle) * g.stiffness
        = (1 - g.stiffness) * g.angle + g.stiffness * g.targetAngle := by ring
    rw [he]
    calc |(1 - g.stiffness) * g.angle + g.stiffness * g.targetAngle|
        ≤ |(1 - g.stiffness) * g.angle| + |g.stiffness * g.targetAngle| := abs_add _ _
      _ = (1 - g.stiffness) * |g.angle| + g.stiffness * |g.targetAngle| := by
          rw [abs_mul, abs_mul, abs_of_nonneg (by linarith), abs_of_nonneg hs0]
      _ ≤ (1 - g.stiffness) * bladeMag g + g.stiffness * bladeMag g := by
          have h1 : |g.angle| ≤ bladeMag g := le_max_left _ _
          have h2 : |g.targetAngle| ≤ bladeMag g := le_max_right _ _
          have h3 : (0 : ℚ) ≤ 1 - g.stiffness := by linarith
          nlinarith
      _ = bladeMag g := by ring
  have htarget : |g.update.targetAngle| ≤ bladeMag g :=
    le_trans (update_step_target g hd0 hd1) (le_max_right _ _)
  exact max_le hangle htarget

/-- Blade for the C4 counterexample: front-layer tuning, angle 0, target
angle 0.5 — a state within bounds. -/
def bladeC4 : GrassBlade :=
  { x := 0, baseY := 66, height := 60, angle := 0, targetAngle := 0.5
    color := "#286328", curve := 0.45, stiffness := 0.15, damping := 0.85
    interactStrength := 0.015, maxBend := 0.55, thickness := 1
    highlightAlpha := 0.08 }

/-- C4 counterexample: `bladeC4` — angle 0 and target angle 0.5, both
within the 0.55 bound — gains angle magnitude on the very next `update()`
(it swings 0 → 0.075 toward the target), so the magnitude of the angle is
not monotonically non-increasing. -/
theorem blade_update_angle_not_monotone :
    |bladeC4.angle| ≤ bladeC4.maxBend ∧ |bladeC4.targetAngle| ≤ bladeC4.maxBend ∧
    |bladeC4.update.angle| > |bladeC4.angle| := by
  refine ⟨?_, ?_, ?_⟩ <;>
    norm_num [bladeC4, GrassBlade.update, clampSeq, abs_le, abs_of_nonneg]

/-- C4 amended: under repeated `update()` with no intervening `interact()`,
for any starting blade state within bounds (and the program's layer tuning
ranges: stiffness and damping in [0, 1], nonnegative maxBend), the
magnitude of the target angle is monotonically non-increasing, the joint
magnitude `max |angle| |targetAngle|` is monotonically non-increasing, and
both angle and target angle stay within `[-maxBend, maxBend]` at every
step; the angle's magnitude alone is not monotone (see the
counterexample), since the angle first swings toward a large target. -/
theorem blade_update_damping (g : GrassBlade)
    (hs0 : 0 ≤ g.stiffness) (hs1 : g.stiffness ≤ 1)
    (hd0 : 0 ≤ g.damping) (hd1 : g.damping ≤ 1)
    (ha : |g.angle| ≤ g.maxBend) (ht : |g.targetAngle| ≤ g.maxBend) (n : ℕ) :
    |(GrassBlade.update^[n + 1] g).targetAngle|
        ≤ |(GrassBlade.update^[n] g).targetAngle| ∧
    bladeMag (GrassBlade.update^[n + 1] g) ≤ bladeMag (GrassBlade.update^[n] g) ∧
    |(GrassBlade.update^[n] g).angle| ≤ g.maxBend ∧
    |(GrassBlade.update^[n] g).targetAngle| ≤ g.maxBend := by
  have hb : (0 : ℚ) ≤ g.maxBend := le_trans (abs_nonneg _) ha
  have hstep : ∀ m : ℕ,
      |(GrassBlade.update^[m + 1] g).targetAngle|
          ≤ |(GrassBlade.update^[m] g).targetAngle| ∧
      bladeMag (GrassBlade.update^[m + 1] g) ≤ bladeMag (GrassBlade.update^[m] g) := by
    intro m
    obtain ⟨hcs, hcd, hcb⟩ := update_iterate_config g m
    rw [Function.iterate_succ_apply']
    exact ⟨update_step_target _ (hcd ▸ hd0) (hcd ▸ hd1),
      update_step_mag _ (hcs ▸ hs0) (hcs ▸ hs1) (hcd ▸ hd0) (hcd ▸ hd1) (hcb ▸ hb)⟩
  have hmag : ∀ m : ℕ, bladeMag (GrassBlade.update^[m] g) ≤ g.maxBend := by
    intro m
    induction m with
    | zero => exact max_le ha ht
    | succ m ih => exact le_trans (hstep m).2 ih
  refine ⟨(hstep n).1, (hstep n).2, ?_, ?_⟩
  · exact le_trans (le_trans (le_max_left _ _) le_rfl) (hmag n)
  · exact le_trans (le_max_right _ _) (hmag n)

/-- Witness for `blade_update_damping`: the back-layer tuning at a bent
start state, checked at the third step. -/
theorem blade_update_damping_witness :
    ((0 : ℚ) ≤ 0.08) ∧ ((0.08 : ℚ) ≤ 1) ∧ ((0 : ℚ) ≤ 0.9) ∧ ((0.9 : ℚ) ≤ 1) ∧
    |(GrassBlade.update^[3]
        { x := 0, baseY := 66, height := 40, angle := 0.3, targetAngle := -0.2
          color := "#145a22", curve := 0.40, stiffness := 0.08, damping := 0.9
          interactStrength := 0.006, maxBend := 0.38, thickness := 1.2
          highlightAlpha := 0 : GrassBlade }).angle| ≤ (0.38 : ℚ) := by
  have h := blade_update_damping
    { x := 0, baseY := 66, height := 40, angle := 0.3, targetAngle := -0.2
      color := "#145a22", curve := 0.40, stiffness := 0.08, damping := 0.9
      interactStrength := 0.006, maxBend := 0.38, thickness := 1.2
      highlightAlpha := 0 : GrassBlade }
    (by norm_num) (by norm_num) (by norm_num) (by norm_num)
    (by norm_num [abs_le]) (by norm_num [abs_le]) 3
  exact ⟨by norm_num, by norm_num, by norm_num, by norm_num, h.2.2.1⟩

/-! ## C1 — the capture handler -/

theorem count_incr_self (inv : Inventory) (t : BugType) :
    (inv.incr t).count t = inv.count t + 1 := by
  cases t <;> rfl

theorem count_incr_other (inv : Inventory) (t t' : BugType) (h : t' ≠ t) :
    (inv.incr t).count t' = inv.count t' := by
  cases t <;> cases t' <;> first | rfl | exact absurd rfl h

theorem captureScan_none (cv : Canvas) (loc : String) (r : Rand) (mx my : ℚ)
    (l : List Bug) (h : ∀ b ∈ l, b.isClicked mx my = false) :
    captureScan cv loc r mx my l = none := by
  induction l with
  | nil => rfl
  | cons b rest ih =>
    unfold captureScan
    rw [ih (fun b' hb' => h b' (List.mem_cons_of_mem _ hb'))]
    rw [h b (List.mem_cons_self _ _)]
    rfl

theorem captureScan_hit (cv : Canvas) (loc : String) (r : Rand) (mx my : ℚ)
    (l : List Bug) (j : ℕ) (hj : j < l.length)
    (hhit : (l.get ⟨j, hj⟩).isClicked mx my = true)
    (hafter : ∀ k, (hk : k < l.length) → j < k → (l.get ⟨k, hk⟩).isClicked mx my = false) :
    captureScan cv loc r mx my l
      = some (l.set j (Bug.reset cv loc r (l.get ⟨j, hj⟩)), (l.get ⟨j, hj⟩).type) := by
  induction l generalizing j with
  | nil => exact absurd hj (Nat.not_lt_zero j)
  | cons b rest ih =>
    cases j with
    | zero =>
      have hrest : ∀ b' ∈ rest, b'.isClicked mx my = false := by
        intro b' hb'
        obtain ⟨k, hget⟩ := List.mem_iff_get.mp hb'
        have hk1 : (k : ℕ) + 1 < (b :: rest).length := Nat.succ_lt_succ k.isLt
        have := hafter ((k : ℕ) + 1) hk1 (Nat.succ_pos _)
        rw [List.get_cons_succ] at this
        rw [← hget]
        exact this
      unfold captureScan
      rw [captureScan_none cv loc r mx my rest hrest]
      rw [show (b :: rest).get ⟨0, hj⟩ = b from rfl] at hhit ⊢
      rw [hhit]
      rfl
    | succ j' =>
      have hj' : j' < rest.length := Nat.lt_of_succ_lt_succ hj
      have hhit' : (rest.get ⟨j', hj'⟩).isClicked mx my = true := by
        rw [← List.get_cons_succ (a := b) (h := hj)]
        exact hhit
      have hafter' : ∀ k, (hk : k < rest.length) → j' < k →
          (rest.get ⟨k, hk⟩).isClicked mx my = false := by
        intro k hk hlt
        have hk1 : k + 1 < (b :: rest).length := Nat.succ_lt_succ hk
        have := hafter (k + 1) hk1 (Nat.succ_lt_succ hlt)
        rw [List.get_cons_succ] at this
        exact this
      unfold captureScan
      rw [ih j' hj' hhit' hafter']
      rfl

/-- C1: on a pointer-down event while the navigation state is "forest",
insects are tested from the highest pool index down; if no insect's hit
region contains the click point, the whole state (inventory included) is
unchanged; otherwise, with `j` the highest-index hit insect, exactly that
insect is replaced by its reset, the inventory count of the type it had at
click time rises by exactly 1, every other count is unchanged, and no
further insect is processed (at most one capture per click). -/
theorem mousedown_capture_spec (cv : Canvas) (r : Rand) (mx my : ℚ) (st : GState)
    (hst : st.nav = NavState.forest) :
    ((∀ b ∈ st.bugs, b.isClicked mx my = false) → mousedown cv r mx my st = st) ∧
    (∀ j, (hj : j < st.bugs.length) →
      (st.bugs.get ⟨j, hj⟩).isClicked mx my = true →
      (∀ k, (hk : k < st.bugs.length) → j < k →
        (st.bugs.get ⟨k, hk⟩).isClicked mx my = false) →
      (mousedown cv r mx my st).bugs
          = st.bugs.set j (Bug.reset cv st.loc r (st.bugs.get ⟨j, hj⟩)) ∧
      (mousedown cv r mx my st).inventory.count (st.bugs.get ⟨j, hj⟩).type
          = st.inventory.count (st.bugs.get ⟨j, hj⟩).type + 1 ∧
      (∀ t, t ≠ (st.bugs.get ⟨j, hj⟩).type →
        (mousedown cv r mx my st).inventory.count t = st.inventory.count t) ∧
      (mousedown cv r mx my st).nav = st.nav ∧
      (mousedown cv r mx my st).loc = st.loc) := by
  constructor
  · intro hnone
    unfold mousedown
    rw [if_pos hst, captureScan_none cv st.loc r mx my st.bugs hnone]
  · intro j hj hhit hafter
    have hscan := captureScan_hit cv st.loc r mx my st.bugs j hj hhit hafter
    unfold mousedown
    rw [if_pos hst, hscan]
    exact ⟨rfl, count_incr_self _ _, fun t htne => count_incr_other _ _ t htne, rfl, rfl⟩

/-- Canvas for the C1 witness. -/
def cvC1 : Canvas := { width := 200, height := 100 }

/-- Randoms creating the C1 witness bug (a hopper at x = 100, y = 84). -/
def randC1 : Rand := { rx := 0.5, rvx := 0.5, rvy := 0.5, rtype := 0 }

/-- Randoms consumed by the capture-triggered reset in the C1 witness. -/
def randC1b : Rand := { rx := 0.25, rvx := 0.5, rvy := 0.5, rtype := 1/3 }

/-- Game state for the C1 witness: a single freshly spawned bug. -/
def stC1 : GState :=
  { nav := NavState.forest, loc := "forest", grassBack := [], grassFront := []
    bugs := [Bug.new cvC1 "forest" randC1]
    inventory := { hopper := 0, beetle := 0, moth := 0 } }

/-- Witness for `mousedown_capture_spec`: clicking the center of the only
bug captures it — the pool entry is replaced by its reset and the hopper
count rises from 0 to 1. -/
theorem mousedown_capture_spec_witness :
    (mousedown cvC1 randC1b 100 84 stC1).bugs
        = stC1.bugs.set 0 (Bug.reset cvC1 "forest" randC1b
            (stC1.bugs.get ⟨0, Nat.zero_lt_succ 0⟩)) ∧
    (mousedown cvC1 randC1b 100 84 stC1).inventory.count
        (stC1.bugs.get ⟨0, Nat.zero_lt_succ 0⟩).type
      = stC1.inventory.count (stC1.bugs.get ⟨0, Nat.zero_lt_succ 0⟩).type + 1 := by
  have h := (mousedown_capture_spec cvC1 randC1b 100 84 stC1 rfl).2 0
    (Nat.zero_lt_succ 0) ?hit ?after
  case hit =>
    norm_num [stC1, cvC1, randC1, Bug.new, Bug.reset, Bug.isClicked, bugSize,
      grassTopY, List.get]
  case after =>
    intro k hk hlt
    exact absurd (Nat.lt_of_lt_of_le hlt (Nat.le_of_lt_succ hk)) (Nat.lt_irrefl 0)
  exact ⟨h.1, h.2.1⟩

/-! ## C7 — one-time forest initialization and fixed pool size -/

theorem buildGrassLayer_length (cv : Canvas) (spacing : ℚ) (o : BladeOpts) (rng : GrassRng) :
    (buildGrassLayer cv spacing o rng).length = layerCount cv.width spacing := by
  unfold buildGrassLayer
  rw [List.length_map, List.length_range]

theorem buildGrassLayer_ne_nil (cv : Canvas) (spacing : ℚ) (o : BladeOpts) (rng : GrassRng)
    (hw : 0 ≤ cv.width) (hs : 0 < spacing) :
    buildGrassLayer cv spacing o rng ≠ [] := by
  apply List.ne_nil_of_length_pos
  rw [buildGrassLayer_length]
  unfold layerCount
  rw [Nat.lt_iff_add_one_le, zero_add, Nat.one_le_ceil_iff]
  apply div_pos
  · unfold OFFSCREEN_BUFFER
    linarith
  · exact hs

theorem ensureForest_fresh (cv : Canvas) (rng : Rng) (st : GState)
    (hgf : st.grassFront = []) (hbugs : st.bugs = []) :
    ensureForestInitialized cv rng st
      = { st with
          grassBack := (createGrass cv st.loc rng.back rng.front).1
          grassFront := (createGrass cv st.loc rng.back rng.front).2
          bugs := (List.range 7).map (fun i => Bug.new cv st.loc (rng.bug i)) } := by
  unfold ensureForestInitialized
  simp [hgf, hbugs]

theorem ensureForest_idle (cv : Canvas) (rng : Rng) (st : GState)
    (hgf : st.grassFront ≠ []) (hbugs : st.bugs ≠ []) :
    ensureForestInitialized cv rng st = st := by
  unfold ensureForestInitialized
  rw [if_neg (fun h => hgf (List.eq_nil_of_length_eq_zero h))]
  rw [if_neg (fun h => hbugs (List.eq_nil_of_length_eq_zero h))]

theorem captureScan_length (cv : Canvas) (loc : String) (r : Rand) (mx my : ℚ)
    (l : List Bug) (p : List Bug × BugType)
    (h : captureScan cv loc r mx my l = some p) : p.1.length = l.length := by
  induction l generalizing p with
  | nil => exact absurd h (by simp [captureScan])
  | cons b rest ih =>
    unfold captureScan at h
    revert h
    cases hscan : captureScan cv loc r mx my rest with
    | some q =>
      intro h
      obtain rfl : (b :: q.1, q.2) = p := by simpa using h
      simpa using ih q hscan
    | none =>
      intro h
      by_cases hc : b.isClicked mx my = true
      · rw [hc] at h
        obtain rfl : (Bug.reset cv loc r b :: rest, b.type) = p := by simpa using h
        simp
      · rw [Bool.not_eq_true] at hc
        rw [hc] at h
        exact absurd h (by simp)

theorem mousedown_bugs_length (cv : Canvas) (r : Rand) (mx my : ℚ) (st : GState) :
    (mousedown cv r mx my st).bugs.length = st.bugs.length := by
  unfold mousedown
  split_ifs with hnav
  · cases hscan : captureScan cv st.loc r mx my st.bugs with
    | some p => simpa using captureScan_length cv st.loc r mx my st.bugs p hscan
    | none => rfl
  · rfl

theorem frameStep_bugs_length (cv : Canvas) (rr : Nat → Rand) (mx my : ℚ) (st : GState) :
    (frameStep cv rr mx my st).bugs.length = st.bugs.length := by
  unfold frameStep
  split_ifs <;> simp

/-- C7: entering the forest for the first time (from the title state, with
all entity arrays still empty) builds both grass layers (they become
nonempty) and populates the pool with exactly 7 insects; re-entering the
forest from the map — same viewport, no theme change — rebuilds neither
layer and keeps the very same pool object, and the pool size stays 7
through any further pointer-down or frame step. -/
theorem forest_initialization (cv : Canvas) (rng rng2 : Rng) (st : GState)
    (hnav : st.nav = NavState.title) (hgb : st.grassBack = [])
    (hgf : st.grassFront = []) (hbugs : st.bugs = []) (hw : 0 ≤ cv.width) :
    (showForest cv rng st).bugs.length = 7 ∧
    (showForest cv rng st).grassBack ≠ [] ∧
    (showForest cv rng st).grassFront ≠ [] ∧
    (hideMap cv rng2 (showMap (showForest cv rng st))).grassBack
        = (showForest cv rng st).grassBack ∧
    (hideMap cv rng2 (showMap (showForest cv rng st))).grassFront
        = (showForest cv rng st).grassFront ∧
    (hideMap cv rng2 (showMap (showForest cv rng st))).bugs
        = (showForest cv rng st).bugs ∧
    (hideMap cv rng2 (showMap (showForest cv rng st))).bugs.length = 7 ∧
    (∀ r mx my, (mousedown cv r mx my
        (hideMap cv rng2 (showMap (showForest cv rng st)))).bugs.length = 7) ∧
    (∀ rr mx my, (frameStep cv rr mx my
        (hideMap cv rng2 (showMap (showForest cv rng st)))).bugs.length = 7) := by
  have hshow : showForest cv rng st
      = { st with
          nav := NavState.forest
          grassBack := (createGrass cv st.loc rng.back rng.front).1
          grassFront := (createGrass cv st.loc rng.back rng.front).2
          bugs := (List.range 7).map (fun i => Bug.new cv st.loc (rng.bug i)) } := by
    unfold showForest
    exact ensureForest_fresh cv rng { st with nav := NavState.forest } hgf hbugs
  have hlen : (showForest cv rng st).bugs.length = 7 := by
    rw [hshow]; simp
  have hfrontne : (showForest cv rng st).grassFront ≠ [] := by
    rw [hshow]
    exact buildGrassLayer_ne_nil cv 2 _ rng.front hw (by norm_num)
  have hbackne : (showForest cv rng st).grassBack ≠ [] := by
    rw [hshow]
    exact buildGrassLayer_ne_nil cv 3 _ rng.back hw (by norm_num)
  have hbugsne : (showForest cv rng st).bugs ≠ [] := by
    intro hempty
    rw [hempty] at hlen
    exact absurd hlen (by simp)
  have hre : hideMap cv rng2 (showMap (showForest cv rng st))
      = { showForest cv rng st with nav := NavState.forest } := by
    unfold hideMap showForest showMap
    exact ensureForest_idle cv rng2
      { showMap (showForest cv rng st) with nav := NavState.forest } hfrontne hbugsne
  refine ⟨hlen, hbackne, hfrontne, ?_, ?_, ?_, ?_, ?_, ?_⟩
  · rw [hre]
  · rw [hre]
  · rw [hre]
  · rw [hre]; exact hlen
  · intro r mx my
    rw [mousedown_bugs_length, hre]
    exact hlen
  · intro rr mx my
    rw [frameStep_bugs_length, hre]
    exact hlen

/-- Randoms for the C7 witness. -/
def rngC7 : Rng :=
  { back := { height := fun _ => 0.5, thick := fun _ => 0.5 }
    front := { height := fun _ => 0.5, thick := fun _ => 0.5 }
    bug := fun _ => { rx := 0.5, rvx := 0.5, rvy := 0.5, rtype := 0 } }

/-- Startup state for the C7 witness. -/
def stC7 : GState :=
  { nav := NavState.title, loc := "forest", grassBack := [], grassFront := []
    bugs := [], inventory := { hopper := 0, beetle := 0, moth := 0 } }

/-- Witness for `forest_initialization` at a concrete 200 × 100 viewport. -/
theorem forest_initialization_witness :
    (showForest { width := 200, height := 100 } rngC7 stC7).bugs.length = 7 ∧
    (hideMap { width := 200, height := 100 } rngC7
        (showMap (showForest { width := 200, height := 100 } rngC7 stC7))).bugs
      = (showForest { width := 200, height := 100 } rngC7 stC7).bugs := by
  have h := forest_initialization { width := 200, height := 100 } rngC7 rngC7 stC7
    rfl rfl rfl rfl (by norm_num)
  exact ⟨h.1, h.2.2.2.2.2.1⟩

/-! ## C8 — update-before-draw and compositor order -/

/-- The part of the frame trace up to the last physics event: the
background draw followed by the three physics passes. -/
def frameUpdatePhase (st : GState) : List FrameEvent :=
  FrameEvent.drawBackground ::
  ((List.range st.grassBack.length).flatMap
      (fun i => [FrameEvent.interactBlade GLayer.back i, FrameEvent.updateBlade GLayer.back i]) ++
   (List.range st.grassFront.length).flatMap
      (fun i => [FrameEvent.interactBlade GLayer.front i, FrameEvent.updateBlade GLayer.front i]) ++
   (List.range st.bugs.length).map FrameEvent.updateBug)

/-- The entity-draw part of the frame trace: back grass, then all bugs,
then the occluder strip, then front grass. -/
def frameDrawPhase (st : GState) : List FrameEvent :=
  (List.range st.grassBack.length).map (FrameEvent.drawBlade GLayer.back) ++
  (List.range st.bugs.length).map FrameEvent.drawBug ++
  FrameEvent.drawOccluder ::
  (List.range st.grassFront.length).map (FrameEvent.drawBlade GLayer.front)

theorem mem_interleaved_pair {α : Type} (l : List ℕ) (f g : ℕ → α) (e : α)
    (he : e ∈ l.flatMap (fun i => [f i, g i])) :
    (∃ i, e = f i) ∨ (∃ i, e = g i) := by
  obtain ⟨i, _, hm⟩ := List.mem_flatMap.mp he
  rcases List.mem_cons.mp hm with h | h
  · exact Or.inl ⟨i, h⟩
  · rcases List.mem_cons.mp h with h2 | h2
    · exact Or.inr ⟨i, h2⟩
    · exact absurd h2 (List.not_mem_nil e)

theorem frameUpdatePhase_no_entity_draw (st : GState) :
    ∀ e ∈ frameUpdatePhase st, e.isEntityDraw = false := by
  intro e he
  rcases List.mem_cons.mp he with rfl | he
  · rfl
  rcases List.mem_append.mp he with he | he
  · rcases List.mem_append.mp he with he | he <;>
      rcases mem_interleaved_pair _ _ _ _ he with ⟨i, rfl⟩ | ⟨i, rfl⟩ <;> rfl
  · obtain ⟨i, _, rfl⟩ := List.mem_map.mp he
    rfl

theorem framePhysics_no_draw (st : GState) :
    ∀ e ∈ ((List.range st.grassBack.length).flatMap
        (fun i => [FrameEvent.interactBlade GLayer.back i, FrameEvent.updateBlade GLayer.back i]) ++
      (List.range st.grassFront.length).flatMap
        (fun i => [FrameEvent.interactBlade GLayer.front i, FrameEvent.updateBlade GLayer.front i]) ++
      (List.range st.bugs.length).map FrameEvent.updateBug), e.isDraw = false := by
  intro e he
  rcases List.mem_append.mp he with he | he
  · rcases List.mem_append.mp he with he | he <;>
      rcases mem_interleaved_pair _ _ _ _ he with ⟨i, rfl⟩ | ⟨i, rfl⟩ <;> rfl
  · obtain ⟨i, _, rfl⟩ := List.mem_map.mp he
    rfl

theorem frameDrawPhase_no_physics (st : GState) :
    ∀ e ∈ frameDrawPhase st, e.isPhysics = false := by
  intro e he
  rcases List.mem_append.mp he with he | he
  · rcases List.mem_append.mp he with he | he <;>
      (obtain ⟨i, _, rfl⟩ := List.mem_map.mp he; rfl)
  rcases List.mem_cons.mp he with rfl | he
  · rfl
  · obtain ⟨i, _, rfl⟩ := List.mem_map.mp he
    rfl

theorem frameDrawPhase_all_draw (st : GState) :
    ∀ e ∈ frameDrawPhase st, e.isDraw = true := by
  intro e he
  rcases List.mem_append.mp he with he | he
  · rcases List.mem_append.mp he with he | he <;>
      (obtain ⟨i, _, rfl⟩ := List.mem_map.mp he; rfl)
  rcases List.mem_cons.mp he with rfl | he
  · rfl
  · obtain ⟨i, _, rfl⟩ := List.mem_map.mp he
    rfl

/-- C8: in a forest frame the event trace is exactly an update phase
followed by a draw phase — every physics event (blade interact/update, bug
update) precedes every entity draw — and the subsequence of draw calls is
exactly background, back grass layer, all insects, occluder strip, front
grass layer. -/
theorem frame_order (st : GState) (hst : st.nav = NavState.forest) :
    frameEvents st = frameUpdatePhase st ++ frameDrawPhase st ∧
    (∀ e ∈ frameUpdatePhase st, e.isEntityDraw = false) ∧
    (∀ e ∈ frameDrawPhase st, e.isPhysics = false) ∧
    (frameEvents st).filter (fun e => e.isDraw)
      = FrameEvent.drawBackground :: frameDrawPhase st := by
  have hsplit : frameEvents st = frameUpdatePhase st ++ frameDrawPhase st := by
    unfold frameEvents frameUpdatePhase frameDrawPhase
    rw [if_pos hst]
    simp [List.append_assoc]
  refine ⟨hsplit, frameUpdatePhase_no_entity_draw st, frameDrawPhase_no_physics st, ?_⟩
  rw [hsplit]
  rw [List.filter_append]
  have h1 : (frameUpdatePhase st).filter (fun e => e.isDraw)
      = [FrameEvent.drawBackground] := by
    unfold frameUpdatePhase
    rw [List.filter_cons_of_pos (by rfl)]
    rw [List.filter_eq_nil_iff.mpr (fun e he => by simp [framePhysics_no_draw st e he])]
  have h2 : (frameDrawPhase st).filter (fun e => e.isDraw) = frameDrawPhase st :=
    List.filter_eq_self.mpr (frameDrawPhase_all_draw st)
  rw [h1, h2]
  rfl

/-- State for the C8 witness: one blade in each layer and one bug. -/
def stC8 : GState :=
  { nav := NavState.forest, loc := "forest"
    grassBack := [GrassBlade.make 0 66 (backOpts (getTheme "forest")) 0.5 0.5]
    grassFront := [GrassBlade.make 0 66 (frontOpts (getTheme "forest")) 0.5 0.5]
    bugs := [Bug.new { width := 200, height := 100 } "forest"
      { rx := 0.5, rvx := 0.5, rvy := 0.5, rtype := 0 }]
    inventory := { hopper := 0, beetle := 0, moth := 0 } }

/-- Witness for `frame_order` at the concrete state `stC8`. -/
theorem frame_order_witness :
    frameEvents stC8 = frameUpdatePhase stC8 ++ frameDrawPhase stC8 ∧
    (frameEvents stC8).filter (fun e => e.isDraw)
      = FrameEvent.drawBackground :: frameDrawPhase stC8 :=
  ⟨(frame_order stC8 rfl).1, (frame_order stC8 rfl).2.2.2⟩

/-! ## C10 — an invisible insect can still be captured -/

/-- Canvas for the C10 scenario: grass line at y = 66. -/
def cvC10 : Canvas := { width := 200, height := 100 }

/-- Randoms spawning the C10 bug: a hopper at x = 100, y = 84. -/
def randC10 : Rand := { rx := 0.5, rvx := 0.5, rvy := 0.5, rtype := 0 }

/-- Randoms consumed by the capture-triggered reset in C10. -/
def randC10b : Rand := { rx := 0.25, rvx := 0.5, rvy := 0.5, rtype := 2/3 }

/-- The C10 bug: exactly the state `reset()` produces (y = grassTop + 18),
before any draw has run. -/
def bugC10 : Bug := Bug.new cvC10 "forest" randC10

/-- Forest state holding only the C10 bug. -/
def stC10 : GState :=
  { nav := NavState.forest, loc := "forest", grassBack := [], grassFront := []
    bugs := [bugC10], inventory := { hopper := 0, beetle := 0, moth := 0 } }

/-- C10: immediately after `reset()` the insect sits at grassTop + 18,
which is past the grassTop + 2 draw cutoff, so `draw()` renders nothing —
yet `isClicked` still reports a hit at its position, and a pointer-down
there in the forest state increments the hopper count and resets the bug:
an invisible insect can be captured. -/
theorem invisible_bug_capturable :
    bugC10.y > grassTopY cvC10 + 2 ∧
    Bug.drawnVisible cvC10 bugC10 = false ∧
    bugC10.isClicked bugC10.x bugC10.y = true ∧
    bugC10.type = BugType.hopper ∧
    (mousedown cvC10 randC10b bugC10.x bugC10.y stC10).inventory.hopper = 1 ∧
    (mousedown cvC10 randC10b bugC10.x bugC10.y stC10).bugs
      = [Bug.reset cvC10 "forest" randC10b bugC10] := by
  have hy : bugC10.y = 84 := by
    norm_num [bugC10, Bug.new, Bug.reset, cvC10, randC10, grassTopY]
  have hx : bugC10.x = 100 := by
    norm_num [bugC10, Bug.new, Bug.reset, cvC10, randC10]
  have htype : bugC10.type = BugType.hopper := by
    norm_num [bugC10, Bug.new, Bug.reset, pickBugType, randC10, BUG_TYPES, List.getD]
  have hclick : bugC10.isClicked bugC10.x bugC10.y = true := by
    rw [Bug.isClicked]
    have hds : bugC10.drawSize = none := by
      norm_num [bugC10, Bug.new, Bug.reset]
    have hrad : bugC10.radius = 12 := by
      norm_num [bugC10, Bug.new, Bug.reset]
    rw [hds]
    norm_num [bugSize, hrad, hx, hy]
  have hscan : captureScan cvC10 "forest" randC10b bugC10.x bugC10.y [bugC10]
      = some ([Bug.reset cvC10 "forest" randC10b bugC10], bugC10.type) := by
    unfold captureScan
    rw [show captureScan cvC10 "forest" randC10b bugC10.x bugC10.y [] = none from rfl]
    rw [hclick]
    rfl
  have hmouse : mousedown cvC10 randC10b bugC10.x bugC10.y stC10
      = { stC10 with
          bugs := [Bug.reset cvC10 "forest" randC10b bugC10]
          inventory := stC10.inventory.incr bugC10.type } := by
    unfold mousedown
    rw [if_pos (show stC10.nav = NavState.forest from rfl)]
    rw [show captureScan cvC10 stC10.loc randC10b bugC10.x bugC10.y stC10.bugs
        = some ([Bug.reset cvC10 "forest" randC10b bugC10], bugC10.type) from hscan]
  refine ⟨?_, ?_, hclick, htype, ?_, ?_⟩
  · rw [hy]; norm_num [cvC10, grassTopY]
  · rw [Bug.drawnVisible, hy]
    norm_num [cvC10, grassTopY]
  · rw [hmouse, htype]
    rfl
  · rw [hmouse]

end GrassHopper
